import Mathlib

/-!
Shallow embedding of the multi-agent news workflow from the langGraph-tutorial
repository (src/unnamed/part_000, src/unnamed/part_001, src/unnamed/part_002
and src/dist/multi-agent.js): the session state with its channel reducers, the
agent node wrapper runAgentNode, the router, the conditional-edge wiring of the
StateGraph, a bounded graph runtime, the parse-and-format block of
generateNews, the WebSocket message handler, and the history construction of
callModel from the single-agent variants.
-/

namespace LGT

/-- Message roles, mirroring HumanMessage, AIMessage, ToolMessage and
SystemMessage from the source. -/
inductive Role where
  | human
  | ai
  | tool
  | system
  deriving DecidableEq

/-- One pending tool invocation attached to a model response. -/
structure ToolCall where
  id : String
  toolName : String
  args : String
  deriving DecidableEq

/-- One conversation message: role, textual content, the optional author tag
(the name field langchain messages carry), the pending tool calls of an
assistant response, and the call id a tool result answers. -/
structure Msg where
  role : Role
  content : String
  name : Option String
  toolCalls : List ToolCall
  toolCallId : Option String
  deriving DecidableEq

/-- The session state threaded through the graph (AgentState in the source). -/
structure AgentState where
  messages : List Msg
  sender : String
  deriving DecidableEq

/-- A node result folded into the session state by the channel reducers. -/
structure StateUpdate where
  messages : List Msg
  sender : Option String
  deriving DecidableEq

/-- The messages channel reducer of AgentState: (x, y) => x.concat(y). -/
def messagesReducer (x y : List Msg) : List Msg := x ++ y

/-- The sender channel reducer of AgentState: (x, y) => y ?? x ?? "user".
After initialization x is always set, so the final "user" default never
fires inside a run. -/
def senderReducer (x : String) (y : Option String) : String :=
  match y with
  | some s => s
  | none => x

/-- Fold one node update into the session state with the two channel
reducers. -/
def applyUpdate (st : AgentState) (u : StateUpdate) : AgentState :=
  { messages := messagesReducer st.messages u.messages,
    sender := senderReducer st.sender u.sender }

/-- runAgentNode from the source: when the model result carries no pending
tool calls it is rebuilt as a human message tagged with the agent name
(new HumanMessage with the spread of result plus name); the update always
sets sender to the agent name. -/
def runAgentNode (agentName : String) (result : Msg) : StateUpdate :=
  if result.toolCalls = [] then
    { messages := [{ result with role := Role.human, name := some agentName }],
      sender := some agentName }
  else
    { messages := [result], sender := some agentName }

/-- True when the most recent message carries at least one pending tool call
(the lastMessage tool_calls check at the top of the router). -/
def lastHasToolCalls (st : AgentState) : Bool :=
  match st.messages.getLast? with
  | some m => !m.toolCalls.isEmpty
  | none => false

/-- The filter the router uses to count researcher contributions:
msg.name equals "SerpResearcher" or "TavResearcher". -/
def isResearchMsg (m : Msg) : Bool :=
  m.name == some "SerpResearcher" || m.name == some "TavResearcher"

/-- Number of messages the router counts as researcher contributions. -/
def researchCount (msgs : List Msg) : Nat :=
  (msgs.filter isResearchMsg).length

/-- Number of messages authored by one named agent (messages tagged with that
name; tool results carry the tool name and pending-tool-call responses carry
no name, so this counts exactly the non-tool contributions of the agent). -/
def contributedBy (agentName : String) (msgs : List Msg) : Nat :=
  (msgs.filter (fun m => m.name == some agentName)).length

/-- The router from the source, returning the same outcome strings:
tool calls pending, Summarizer done, enough research messages, or continue. -/
def router (st : AgentState) : String :=
  if lastHasToolCalls st then "call_tool"
  else if st.sender = "Summarizer" then "end"
  else if 2 ≤ researchCount st.messages then "summarize"
  else "continue"

/-- The four nodes registered on the StateGraph workflow. -/
inductive Node where
  | serp
  | tav
  | summ
  | callTool
  deriving DecidableEq

/-- The registered node name, used as sender id and routing key. -/
def nodeName : Node → String
  | Node.serp => "SerpResearcher"
  | Node.tav => "TavResearcher"
  | Node.summ => "Summarizer"
  | Node.callTool => "call_tool"

/-- Modelled from the spec: the Tool-Invocation Node (ToolNode from the
LangGraph library, code not in this repository) executes every pending tool
call attached to the most recent message and appends one tool-role message
per call, carrying the originating call id and the tool name; it does not
update sender. The external search capability is abstracted by toolOut. -/
def toolNodeUpdate (toolOut : ToolCall → String) (st : AgentState) : StateUpdate :=
  { messages :=
      (match st.messages.getLast? with
        | some m => m.toolCalls
        | none => []).map (fun c =>
          { role := Role.tool, content := toolOut c, name := some c.toolName,
            toolCalls := [], toolCallId := some c.id }),
    sender := none }

/-- One node execution: the three agent nodes (serpNode, tavNode,
summarizerNode) fold a runAgentNode update over the model response, which is
abstracted by oracle and keyed by agent name; call_tool folds the tool node
update. -/
def nodeStep (oracle : String → AgentState → Msg) (toolOut : ToolCall → String)
    (n : Node) (st : AgentState) : AgentState :=
  match n with
  | Node.serp =>
    applyUpdate st (runAgentNode "SerpResearcher" (oracle "SerpResearcher" st))
  | Node.tav =>
    applyUpdate st (runAgentNode "TavResearcher" (oracle "TavResearcher" st))
  | Node.summ =>
    applyUpdate st (runAgentNode "Summarizer" (oracle "Summarizer" st))
  | Node.callTool => applyUpdate st (toolNodeUpdate toolOut st)

/-- The conditional edges of the workflow, a direct mirror of the
addConditionalEdges calls: both researcher nodes map all four router
outcomes, the Summarizer maps only "end", and call_tool routes on the
sender field; an outcome missing from a path map is a fatal wiring error. -/
def routeFrom (n : Node) (st : AgentState) : Except String (Option Node) :=
  match n with
  | Node.serp =>
    if router st = "continue" then Except.ok (some Node.tav)
    else if router st = "call_tool" then Except.ok (some Node.callTool)
    else if router st = "summarize" then Except.ok (some Node.summ)
    else if router st = "end" then Except.ok none
    else Except.error "unmapped router outcome"
  | Node.tav =>
    if router st = "continue" then Except.ok (some Node.serp)
    else if router st = "call_tool" then Except.ok (some Node.callTool)
    else if router st = "summarize" then Except.ok (some Node.summ)
    else if router st = "end" then Except.ok none
    else Except.error "unmapped router outcome"
  | Node.summ =>
    if router st = "end" then Except.ok none
    else Except.error "unmapped router outcome"
  | Node.callTool =>
    if st.sender = "SerpResearcher" then Except.ok (some Node.serp)
    else if st.sender = "TavResearcher" then Except.ok (some Node.tav)
    else Except.error "unmapped sender"

/-- Modelled from the spec: the graph runtime loop (the LangGraph invoke
driver, library code not in this repository) runs the current node, folds its
update into the state, consults the conditional edge and repeats until END;
the iteration cap (recursionLimit) aborts a runaway run with a fatal
GraphRecursionError instead of looping forever. The trace accumulates the
nodes executed, in order. -/
def run (oracle : String → AgentState → Msg) (toolOut : ToolCall → String) :
    Nat → Option Node → AgentState → List Node →
    Except String (AgentState × List Node)
  | _, none, st, trace => Except.ok (st, trace)
  | 0, some _, _, _ => Except.error "GraphRecursionError"
  | fuel + 1, some n, st, trace =>
    match routeFrom n (nodeStep oracle toolOut n st) with
    | Except.ok next =>
      run oracle toolOut fuel next (nodeStep oracle toolOut n st) (trace ++ [n])
    | Except.error e => Except.error e

/-- The default iteration cap of the runtime (LangGraph recursionLimit). -/
def recursionLimit : Nat := 25

/-- The initial session state generateNews passes to graph.invoke. -/
def initialState (topic : String) : AgentState :=
  { messages := [{ role := Role.human,
                   content := "report current events about: " ++ topic,
                   name := none, toolCalls := [], toolCallId := none }],
    sender := "user" }

/-- Run the compiled graph from START, which has its single edge to
SerpResearcher. -/
def runFromStart (oracle : String → AgentState → Msg)
    (toolOut : ToolCall → String) (topic : String) :
    Except String (AgentState × List Node) :=
  run oracle toolOut recursionLimit (some Node.serp) (initialState topic) []

/-- One key point of the summarizer payload. -/
structure KeyPoint where
  point : String
  details : String
  deriving DecidableEq

/-- The summary object of the summarizer JSON payload. -/
structure SummaryPayload where
  headline : String
  overview : String
  keyPoints : List KeyPoint
  insights : String
  conclusion : String
  deriving DecidableEq

/-- A parsed final message; the formatting block only looks at the summary
field of the parsed value. -/
structure ParsedResponse where
  summary : Option SummaryPayload
  deriving DecidableEq

/-- formatSummaryFromJSON from the source: headline, overview, key points
with details, insights, conclusion, in that order. -/
def formatSummaryFromJSON (s : SummaryPayload) : String :=
  "# " ++ s.headline ++ "\n\n" ++ s.overview ++ "\n\n" ++ "## Key Points\n\n" ++
    (s.keyPoints.foldl
      (fun acc kp => acc ++ "**" ++ kp.point ++ "**\n" ++ kp.details ++ "\n\n")
      "") ++
    "## Insights\n\n" ++ s.insights ++ "\n\n" ++ "## Conclusion\n\n" ++
    s.conclusion

/-- The parse-and-format block of generateNews. JSON.parse is abstracted by
the parse argument, a throw being modelled as none; the catch swallows the
failure, so the block is a total function that yields a formatted summary
only when the parsed value carries a summary field. -/
def generateNewsFormatted (parse : String → Option ParsedResponse)
    (content : String) : Option String :=
  match parse content with
  | some j =>
    match j.summary with
    | some s => some (formatSummaryFromJSON s)
    | none => none
  | none => none

/-- JavaScript a || b where a is an optional string: undefined and the empty
string are both falsy. -/
def jsOrStr (a : Option String) (b : String) : String :=
  match a with
  | some s => if s = "" then b else s
  | none => b

/-- Content of the last message of a state (messages.at(-1) content). -/
def lastContent (st : AgentState) : Option String :=
  st.messages.getLast?.map Msg.content

/-- generateNews from the multi-agent source: on success it returns the final
state together with the optional formatted summary of the last message; the
catch turns any workflow error into the pair of undefined values. -/
def generateNews (parse : String → Option ParsedResponse)
    (runResult : Except String (AgentState × List Node)) :
    Option AgentState × Option String :=
  match runResult with
  | Except.ok (st, _) =>
    (some st,
      match lastContent st with
      | some c => generateNewsFormatted parse c
      | none => none)
  | Except.error _ => (none, none)

/-- The news string the WebSocket handler sends on a lookup: the formatted
summary, else the raw content of the last message, else the fixed fallback,
chained with JavaScript falsy-or. -/
def wsNews (formattedSummary : Option String) (finalContent : Option String) :
    String :=
  jsOrStr formattedSummary (jsOrStr finalContent "No response available")

/-- An inbound WebSocket frame after JSON.parse. -/
structure InboundRequest where
  command : String
  topic : String
  session_id : String
  deriving DecidableEq

/-- The WebSocket message handler: a frame that fails to parse hits the catch
and sends the fixed apology; a lookup news command sends the chained fallback
string; any other command sends nothing. -/
def wsHandler (req : Option InboundRequest)
    (gen : Option AgentState × Option String) : Option String :=
  match req with
  | none => some "Oops, something went wrong!"
  | some r =>
    if r.command = "lookup news" then
      some (wsNews gen.2 (gen.1.bind lastContent))
    else none

/-- The history construction inside callModel of the single-agent variants:
the node system prompt is prepended exactly when the first history entry is
not a system message (the source inspects the constructor name of the entry
at index zero only). -/
def callModelMessages (systemPrompt : Msg) (messages : List Msg) : List Msg :=
  match messages.head? with
  | some m =>
    if m.role = Role.system then messages else systemPrompt :: messages
  | none => systemPrompt :: messages

/-! Concrete values used by counterexamples and witnesses. -/

/-- A plain model response with no pending tool calls. -/
def mPlain : Msg :=
  { role := Role.ai, content := "findings", name := none, toolCalls := [],
    toolCallId := none }

/-- A model response that always requests one search tool call. -/
def mToolCall : Msg :=
  { role := Role.ai, content := "", name := none,
    toolCalls := [{ id := "call-1", toolName := "serpapi", args := "q" }],
    toolCallId := none }

/-- The initial user message of the counterexample states. -/
def mUser : Msg :=
  { role := Role.human, content := "report current events about: ai",
    name := none, toolCalls := [], toolCallId := none }

/-- A researcher contribution tagged SerpResearcher. -/
def mSerpA : Msg :=
  { role := Role.human, content := "first findings",
    name := some "SerpResearcher", toolCalls := [], toolCallId := none }

/-- A second researcher contribution tagged SerpResearcher. -/
def mSerpB : Msg :=
  { role := Role.human, content := "second findings",
    name := some "SerpResearcher", toolCalls := [], toolCallId := none }

/-- A state holding two SerpResearcher contributions and none from
TavResearcher, whose last message carries no tool calls. -/
def stTwoSerp : AgentState :=
  { messages := [mUser, mSerpA, mSerpB], sender := "SerpResearcher" }

/-- A state whose sender is SerpResearcher and whose last message carries a
pending tool call, as seen by the tool node. -/
def stSenderSerp : AgentState :=
  { messages := [mUser, mToolCall], sender := "SerpResearcher" }

/-- A state immediately after the Summarizer node. -/
def stSummDone : AgentState :=
  { messages := [mUser,
      { role := Role.human, content := "summary text",
        name := some "Summarizer", toolCalls := [], toolCallId := none }],
    sender := "Summarizer" }

/-- A successfully finished state whose final message has empty content. -/
def stEmptyFinal : AgentState :=
  { messages := [
      { role := Role.human, content := "",
        name := some "Summarizer", toolCalls := [], toolCallId := none }],
    sender := "Summarizer" }

/-! Helper lemmas shared by the claim theorems. -/

theorem applyUpdate_messages (st : AgentState) (u : StateUpdate) :
    (applyUpdate st u).messages = st.messages ++ u.messages := rfl

theorem nodeStep_messages (oracle : String → AgentState → Msg)
    (toolOut : ToolCall → String) (n : Node) (st : AgentState) :
    ∃ t, (nodeStep oracle toolOut n st).messages = st.messages ++ t := by
  cases n with
  | serp =>
    exact ⟨(runAgentNode "SerpResearcher" (oracle "SerpResearcher" st)).messages,
      rfl⟩
  | tav =>
    exact ⟨(runAgentNode "TavResearcher" (oracle "TavResearcher" st)).messages,
      rfl⟩
  | summ =>
    exact ⟨(runAgentNode "Summarizer" (oracle "Summarizer" st)).messages, rfl⟩
  | callTool => exact ⟨(toolNodeUpdate toolOut st).messages, rfl⟩

theorem run_ok_messages (oracle : String → AgentState → Msg)
    (toolOut : ToolCall → String) :
    ∀ (fuel : Nat) (cur : Option Node) (st : AgentState) (tr : List Node)
      (stF : AgentState) (trF : List Node),
      run oracle toolOut fuel cur st tr = Except.ok (stF, trF) →
      ∃ t, stF.messages = st.messages ++ t := by
  intro fuel
  induction fuel with
  | zero =>
    intro cur st tr stF trF h
    cases cur with
    | none =>
      simp [run] at h
      exact ⟨[], by simp [h.1]⟩
    | some n => simp [run] at h
  | succ f ih =>
    intro cur st tr stF trF h
    cases cur with
    | none =>
      simp [run] at h
      exact ⟨[], by simp [h.1]⟩
    | some n =>
      rw [run] at h
      cases hr : routeFrom n (nodeStep oracle toolOut n st) with
      | error e => rw [hr] at h; simp at h
      | ok next =>
        rw [hr] at h
        simp only [] at h
        obtain ⟨t1, ht1⟩ :=
          ih next (nodeStep oracle toolOut n st) (tr ++ [n]) stF trF h
        obtain ⟨t0, ht0⟩ := nodeStep_messages oracle toolOut n st
        exact ⟨t0 ++ t1, by rw [ht1, ht0, List.append_assoc]⟩

theorem run_ok_trace (oracle : String → AgentState → Msg)
    (toolOut : ToolCall → String) :
    ∀ (fuel : Nat) (cur : Option Node) (st : AgentState) (tr : List Node)
      (stF : AgentState) (trF : List Node),
      run oracle toolOut fuel cur st tr = Except.ok (stF, trF) →
      trF.length ≤ tr.length + fuel := by
  intro fuel
  induction fuel with
  | zero =>
    intro cur st tr stF trF h
    cases cur with
    | none =>
      simp [run] at h
      simp [h.2]
    | some n => simp [run] at h
  | succ f ih =>
    intro cur st tr stF trF h
    cases cur with
    | none =>
      simp [run] at h
      simp [h.2]
    | some n =>
      rw [run] at h
      cases hr : routeFrom n (nodeStep oracle toolOut n st) with
      | error e => rw [hr] at h; simp at h
      | ok next =>
        rw [hr] at h
        simp only [] at h
        have := ih next (nodeStep oracle toolOut n st) (tr ++ [n]) stF trF h
        simp [List.length_append] at this
        omega

/-! Claim theorems. -/

/-- Claim C2: the Tool-Invocation Node never changes sender, the conditional
edge out of call_tool returns control to exactly the agent node named by the
sender field — the field every agent node sets to its own name when it emits
its response, tool calls included — and a sender naming neither researcher has
no mapped edge, so control can never pass to an unrelated agent. -/
theorem c2_tool_return :
    (∀ (oracle : String → AgentState → Msg) (toolOut : ToolCall → String)
       (st : AgentState),
      (nodeStep oracle toolOut Node.callTool st).sender = st.sender) ∧
    (∀ (oracle : String → AgentState → Msg) (toolOut : ToolCall → String)
       (st : AgentState), st.sender = "SerpResearcher" →
      routeFrom Node.callTool (nodeStep oracle toolOut Node.callTool st) =
        Except.ok (some Node.serp)) ∧
    (∀ (oracle : String → AgentState → Msg) (toolOut : ToolCall → String)
       (st : AgentState), st.sender = "TavResearcher" →
      routeFrom Node.callTool (nodeStep oracle toolOut Node.callTool st) =
        Except.ok (some Node.tav)) ∧
    (∀ (oracle : String → AgentState → Msg) (toolOut : ToolCall → String)
       (st : AgentState),
      st.sender ≠ "SerpResearcher" → st.sender ≠ "TavResearcher" →
      routeFrom Node.callTool (nodeStep oracle toolOut Node.callTool st) =
        Except.error "unmapped sender") ∧
    (∀ (oracle : String → AgentState → Msg) (toolOut : ToolCall → String)
       (n : Node) (st : AgentState), n ≠ Node.callTool →
      (nodeStep oracle toolOut n st).sender = nodeName n) := by
  have hsender : ∀ (oracle : String → AgentState → Msg)
      (toolOut : ToolCall → String) (st : AgentState),
      (nodeStep oracle toolOut Node.callTool st).sender = st.sender :=
    fun _ _ _ => rfl
  refine ⟨hsender, ?_, ?_, ?_, ?_⟩
  · intro oracle toolOut st h
    simp [routeFrom, hsender oracle toolOut st, h]
  · intro oracle toolOut st h
    simp [routeFrom, hsender oracle toolOut st, h]
  · intro oracle toolOut st h1 h2
    simp [routeFrom, hsender oracle toolOut st, h1, h2]
  · intro oracle toolOut n st hn
    cases n with
    | serp =>
      by_cases hc : (oracle "SerpResearcher" st).toolCalls = [] <;>
        simp [nodeStep, applyUpdate, senderReducer, runAgentNode, hc, nodeName]
    | tav =>
      by_cases hc : (oracle "TavResearcher" st).toolCalls = [] <;>
        simp [nodeStep, applyUpdate, senderReducer, runAgentNode, hc, nodeName]
    | summ =>
      by_cases hc : (oracle "Summarizer" st).toolCalls = [] <;>
        simp [nodeStep, applyUpdate, senderReducer, runAgentNode, hc, nodeName]
    | callTool => exact absurd rfl hn

/-- Claim C2 witness: from a state whose sender is SerpResearcher, the edge
out of call_tool goes back to the SerpResearcher node. -/
theorem c2_tool_return_witness :
    routeFrom Node.callTool
      (nodeStep (fun _ _ => mPlain) (fun _ => "resultTwo") Node.callTool
        stSenderSerp) = Except.ok (some Node.serp) :=
  c2_tool_return.2.1 (fun _ _ => mPlain) (fun _ => "resultTwo") stSenderSerp rfl

/-- Claim C3: the messages channel is append-only — every single node step
extends the previous messages list on the right, and any completed run of the
graph runtime leaves the initial messages list intact as an unchanged initial
segment of the final one, so the length never decreases and no existing entry
is mutated, removed or reordered. -/
theorem c3_append_only :
    (∀ (oracle : String → AgentState → Msg) (toolOut : ToolCall → String)
       (n : Node) (st : AgentState),
      ∃ t, (nodeStep oracle toolOut n st).messages = st.messages ++ t) ∧
    (∀ (oracle : String → AgentState → Msg) (toolOut : ToolCall → String)
       (fuel : Nat) (cur : Option Node) (st : AgentState) (tr : List Node)
       (stF : AgentState) (trF : List Node),
      run oracle toolOut fuel cur st tr = Except.ok (stF, trF) →
      ∃ t, stF.messages = st.messages ++ t) :=
  ⟨nodeStep_messages, fun oracle toolOut => run_ok_messages oracle toolOut⟩

/-- Claim C3 witness: a trivially completed run (already at END) keeps the
messages list as an initial segment of itself. -/
theorem c3_append_only_witness :
    ∃ t, (initialState "ai").messages = (initialState "ai").messages ++ t :=
  c3_append_only.2 (fun _ _ => mPlain) (fun _ => "resultThree") 0 none
    (initialState "ai") [] (initialState "ai") [] rfl

/-- Claim C5: the graph runtime always halts within the iteration cap — a run
that completes executed at most fuel nodes beyond those already traced — and
when the cap is exhausted by a runaway loop (here an agent that requests a
tool call on every invocation, bouncing between the agent node and call_tool
forever) the runtime surfaces the fatal GraphRecursionError instead of
looping forever. -/
theorem c5_iteration_cap :
    (∀ (oracle : String → AgentState → Msg) (toolOut : ToolCall → String)
       (fuel : Nat) (cur : Option Node) (st : AgentState) (tr : List Node)
       (stF : AgentState) (trF : List Node),
      run oracle toolOut fuel cur st tr = Except.ok (stF, trF) →
      trF.length ≤ tr.length + fuel) ∧
    runFromStart (fun _ _ => mToolCall) (fun _ => "raw result") "ai" =
      Except.error "GraphRecursionError" :=
  ⟨fun oracle toolOut => run_ok_trace oracle toolOut, rfl⟩

/-- Claim C5 witness: a trivially completed run obeys the trace bound. -/
theorem c5_iteration_cap_witness :
    ([] : List Node).length ≤ ([] : List Node).length + 0 :=
  c5_iteration_cap.1 (fun _ _ => mPlain) (fun _ => "resultFive") 0 none
    (initialState "x") [] (initialState "x") [] rfl

/-- Claim C9: the Summarizer node always sets sender to Summarizer, and from
any state whose sender is Summarizer and whose last message carries no pending
tool calls the router returns end — the only outcome the Summarizer edge map
handles — so the mapped edge yields END and no unmapped outcome can occur
under that precondition. -/
theorem c9_summarizer_end :
    (∀ (oracle : String → AgentState → Msg) (toolOut : ToolCall → String)
       (st : AgentState),
      (nodeStep oracle toolOut Node.summ st).sender = "Summarizer") ∧
    (∀ st : AgentState, st.sender = "Summarizer" →
      lastHasToolCalls st = false →
      router st = "end" ∧ routeFrom Node.summ st = Except.ok none) := by
  constructor
  · intro oracle toolOut st
    by_cases hc : (oracle "Summarizer" st).toolCalls = [] <;>
      simp [nodeStep, applyUpdate, senderReducer, runAgentNode, hc]
  · intro st h1 h2
    have hr : router st = "end" := by simp [router, h1, h2]
    exact ⟨hr, by simp [routeFrom, hr]⟩

/-- Claim C9 witness: a concrete state just after the Summarizer node routes
to end and the Summarizer edge map sends it to END. -/
theorem c9_summarizer_end_witness :
    router stSummDone = "end" ∧ routeFrom Node.summ stSummDone = Except.ok none :=
  c9_summarizer_end.2 stSummDone rfl rfl

/-- Claim C1 counterexample: a session state whose last message carries no
tool calls and whose sender is not the Summarizer, holding two researcher
messages both authored by SerpResearcher and none by TavResearcher, is routed
to the Summarizer even though TavResearcher has contributed no non-tool
message — the router counts researcher messages in aggregate, not per agent,
so the claimed equivalence fails. -/
theorem c1_counterexample :
    lastHasToolCalls stTwoSerp = false ∧
    stTwoSerp.sender ≠ "Summarizer" ∧
    router stTwoSerp = "summarize" ∧
    contributedBy "TavResearcher" stTwoSerp.messages = 0 := by decide

/-- Claim C1 (amended): with no pending tool calls and a sender other than the
Summarizer, the router routes to the Summarizer exactly when the aggregate
count of researcher-named messages reaches two — the number of research
agents, but counted in total rather than per agent; nevertheless, in a run of
the graph with no tool calls ever triggered, every research agent is visited
exactly once, in the fixed order SerpResearcher, TavResearcher, before the
Summarizer runs and the workflow ends. -/
theorem c1_router_fairness :
    (∀ st : AgentState, lastHasToolCalls st = false →
      st.sender ≠ "Summarizer" →
      (router st = "summarize" ↔ 2 ≤ researchCount st.messages)) ∧
    (∀ (oracle : String → AgentState → Msg) (toolOut : ToolCall → String)
       (topic : String), (∀ nm st, (oracle nm st).toolCalls = []) →
      ∃ stF, runFromStart oracle toolOut topic =
        Except.ok (stF, [Node.serp, Node.tav, Node.summ])) := by
  constructor
  · intro st h1 h2
    by_cases hc : 2 ≤ researchCount st.messages
    · have : router st = "summarize" := by simp [router, h1, h2, hc]
      rw [this]
      exact iff_of_true rfl hc
    · have : router st = "continue" := by simp [router, h1, h2, hc]
      rw [this]
      exact iff_of_false (by decide) hc
  · intro oracle toolOut topic h
    have ho : oracle = fun nm st => { oracle nm st with toolCalls := [] } := by
      funext nm st
      rw [← h nm st]
    rw [ho]
    exact ⟨_, rfl⟩

/-- Claim C1 witness: with a concrete tool-free model, the run from START
visits SerpResearcher, TavResearcher and the Summarizer, in that order, and
ends. -/
theorem c1_router_fairness_witness :
    ∃ stF, runFromStart (fun _ _ => mPlain) (fun _ => "resultOne") "ai" =
      Except.ok (stF, [Node.serp, Node.tav, Node.summ]) :=
  c1_router_fairness.2 (fun _ _ => mPlain) (fun _ => "resultOne") "ai"
    (fun _ _ => rfl)

/-- Claim C4 counterexample: wrapping a tool-call-free model response records
the agent name as author, but it also rewrites the role of the message from
ai to human, so the reinterpretation does change the role recorded in the
history, beyond recording authorship. -/
theorem c4_counterexample :
    mPlain.role = Role.ai ∧
    (runAgentNode "SerpResearcher" mPlain).messages =
      [{ role := Role.human, content := "findings",
         name := some "SerpResearcher", toolCalls := [], toolCallId := none }] ∧
    Role.ai ≠ Role.human := by decide

/-- Claim C4 (amended): when the returned message carries no pending tool
calls, the node records the agent name as the author of the message and
preserves its content, but rebuilds it as a human-role message — the role is
rewritten to human rather than left unchanged; the update also sets sender to
the agent name. -/
theorem c4_author_tag (agentName : String) (m : Msg) (h : m.toolCalls = []) :
    runAgentNode agentName m =
      { messages := [{ m with role := Role.human, name := some agentName }],
        sender := some agentName } := by
  simp [runAgentNode, h]

/-- Claim C4 witness: the amended statement at a concrete response. -/
theorem c4_author_tag_witness :
    runAgentNode "TavResearcher" mPlain =
      { messages :=
          [{ mPlain with role := Role.human, name := some "TavResearcher" }],
        sender := some "TavResearcher" } :=
  c4_author_tag "TavResearcher" mPlain rfl

/-- Claim C6 counterexample: the empty string is content on which JSON
parsing fails, yet the caller does not receive it unchanged — the formatting
block swallows the failure and yields no formatted summary, but the falsy-or
chain of the transport then substitutes the fixed no-response fallback for
the empty content, so the claim as stated fails at empty content. -/
theorem c6_counterexample :
    generateNewsFormatted (fun _ => (none : Option ParsedResponse)) "" =
      none ∧
    wsNews (generateNewsFormatted (fun _ => none) "") (some "") =
      "No response available" ∧
    ("No response available" : String) ≠ "" := by
  refine ⟨rfl, rfl, by decide⟩

/-- Claim C6 (amended): when the final content fails to parse as JSON, or
parses to a value without a summary field, the formatting block yields no
formatted summary — the failure is swallowed into a total function returning
none, it never propagates — and for nonempty content the fallback chain then
hands the caller exactly the raw content, unchanged; empty content instead
falls through to the fixed no-response fallback. -/
theorem c6_formatter_fallback (parse : String → Option ParsedResponse)
    (content : String)
    (hp : parse content = none ∨
      ∃ r, parse content = some r ∧ r.summary = none)
    (hc : content ≠ "") :
    generateNewsFormatted parse content = none ∧
    wsNews (generateNewsFormatted parse content) (some content) = content := by
  have hf : generateNewsFormatted parse content = none := by
    rcases hp with h | ⟨r, hr, hs⟩
    · simp [generateNewsFormatted, h]
    · simp [generateNewsFormatted, hr, hs]
  refine ⟨hf, ?_⟩
  simp [wsNews, hf, jsOrStr, hc]

/-- Claim C6 witness: a concrete non-JSON content is returned unchanged. -/
theorem c6_formatter_fallback_witness :
    generateNewsFormatted (fun _ => (none : Option ParsedResponse))
      "plain text" = none ∧
    wsNews (generateNewsFormatted (fun _ => none) "plain text")
      (some "plain text") = "plain text" :=
  c6_formatter_fallback (fun _ => none) "plain text" (Or.inl rfl) (by decide)

/-- Claim C7 counterexample: two fatal paths yield different fixed fallback
responses — a malformed inbound frame yields the apology string, while a
failed workflow run (here runaway routing surfaced as GraphRecursionError)
yields the no-response string — so not every fatal path yields the same
fixed fallback response. -/
theorem c7_counterexample :
    wsHandler none (generateNews (fun _ => none) (Except.error "boom")) =
      some "Oops, something went wrong!" ∧
    wsHandler
      (some { command := "lookup news", topic := "ai", session_id := "s1" })
      (generateNews (fun _ => none) (Except.error "GraphRecursionError")) =
      some "No response available" ∧
    ("Oops, something went wrong!" : String) ≠ "No response available" := by
  refine ⟨rfl, rfl, by decide⟩

/-- Claim C7 (amended): each fatal path yields a fixed fallback response, but
there are two of them, not one shared response — a frame that fails to parse
always yields the apology string, and a workflow failure (generation
capability failure or runaway routing, both surfaced as an error by the
runtime and caught by generateNews) always yields the no-response string; in
either case a single fixed message is sent and no partial state reaches the
caller. -/
theorem c7_fatal_fallbacks :
    (∀ gen : Option AgentState × Option String,
      wsHandler none gen = some "Oops, something went wrong!") ∧
    (∀ (parse : String → Option ParsedResponse) (e topic sid : String),
      wsHandler
        (some { command := "lookup news", topic := topic, session_id := sid })
        (generateNews parse (Except.error e)) =
        some "No response available") :=
  ⟨fun _ => rfl, fun _ _ _ _ => rfl⟩

/-- Claim C8 counterexample: a history whose second entry is a system message
already contains a system message, yet callModel still prepends the node
system prompt, because the source only inspects the entry at index zero. -/
theorem c8_counterexample :
    (⟨Role.system, "later system", none, [], none⟩ : Msg) ∈
      [(⟨Role.human, "hello", none, [], none⟩ : Msg),
       ⟨Role.system, "later system", none, [], none⟩] ∧
    callModelMessages
      ⟨Role.system, "You are a helpful news analyst assistant.", none, [], none⟩
      [⟨Role.human, "hello", none, [], none⟩,
       ⟨Role.system, "later system", none, [], none⟩] =
      ⟨Role.system, "You are a helpful news analyst assistant.", none, [], none⟩ ::
        [(⟨Role.human, "hello", none, [], none⟩ : Msg),
         ⟨Role.system, "later system", none, [], none⟩] := by decide

/-- Claim C8 (amended): the system prompt is prepended if and only if the
first entry of the history is not a system message, and the history is reused
as-is exactly when its first entry is a system message — a system message
appearing later in the history does not suppress prepending. -/
theorem c8_prepend_iff_head :
    ∀ (sp : Msg) (msgs : List Msg),
      (callModelMessages sp msgs = msgs ↔
        msgs.head?.map Msg.role = some Role.system) ∧
      (callModelMessages sp msgs = sp :: msgs ↔
        msgs.head?.map Msg.role ≠ some Role.system) := by
  intro sp msgs
  cases msgs with
  | nil =>
    constructor
    · constructor
      · intro h
        exact absurd (congrArg List.length h) (by simp [callModelMessages])
      · intro h
        simp at h
    · simp [callModelMessages]
  | cons m rest =>
    by_cases hm : m.role = Role.system
    · constructor
      · simp [callModelMessages, hm]
      · constructor
        · intro h
          exact absurd (congrArg List.length h)
            (by simp [callModelMessages, hm])
        · intro h
          simp [hm] at h
    · constructor
      · constructor
        · intro h
          exact absurd (congrArg List.length h)
            (by simp [callModelMessages, hm])
        · intro h
          simp [hm] at h
      · simp [callModelMessages, hm]

/-- Claim C10: when a run completes with an empty final content and no
formatted summary was produced, the handler falls through to the fixed
no-response fallback — shown both on the raw chain and through the full
handler on a finished state — and the falsy-or chain can never hand the
caller an empty string. -/
theorem c10_no_empty_reply :
    wsNews none (some "") = "No response available" ∧
    wsHandler
      (some { command := "lookup news", topic := "ai", session_id := "s1" })
      (some stEmptyFinal, none) = some "No response available" ∧
    (∀ (f c : Option String), wsNews f c ≠ "") := by
  refine ⟨rfl, rfl, ?_⟩
  intro f c
  cases f with
  | none =>
    cases c with
    | none => decide
    | some t =>
      by_cases ht : t = "" <;> simp [wsNews, jsOrStr, ht]
  | some s =>
    by_cases hs : s = ""
    · cases c with
      | none => simp [wsNews, jsOrStr, hs]
      | some t =>
        by_cases ht : t = "" <;> simp [wsNews, jsOrStr, hs, ht]
    · simp [wsNews, jsOrStr, hs]

end LGT
